import Mathlib

/-!
Shallow embedding of the `narr_mod` narrative-structure library
(`src/narr_mod/harmon_story_circle.py` and `src/narr_mod/vogler_hero_journey.py`)
and proofs about it.

Conventions of the embedding:
* Python strings are Lean `String`s; Python `text[a:b]` slicing, `str.lower()`,
  `" ".join`, `in` (substring test) and `str.replace(" ", "_")` are modelled by
  explicit character-list functions below.
* Python dicts built from the stage catalogs are association lists
  `List (String × _)`; all catalog keys are pairwise distinct, so `List.lookup`
  agrees with Python dict lookup, and `dict.get(k, d)` is `(lookup k).getD d`.
* Python numbers appearing in scores/ratios are `ℚ` (every value actually
  produced by this code — halves, thousandths — is exact in binary floating
  point, so `ℚ` arithmetic agrees with the Python float arithmetic here).
* A Python expression that can raise `ZeroDivisionError` is modelled with
  `Option`: `none` means the exception is raised.
* The trigonometric layout is modelled over `ℝ`; the handful of concrete
  IEEE-754 double results that Python interpolates into HTML strings are
  tabulated as string constants where noted.
-/

namespace NarrMod

/-- Python `c.lower()` for a single character (ASCII case folding, which is all
the catalogs use; `Char.toLower` matches CPython on every character occurring
in this repository). -/
def pyCharLower (c : Char) : Char := c.toLower

/-- Python `s.lower()`. -/
def pyLower (s : String) : String := String.mk (s.data.map pyCharLower)

/-- Python `s[a:b]` for non-negative bounds: characters `a..b-1`, clamped. -/
def pySlice (s : String) (a b : Nat) : String :=
  String.mk ((s.data.drop a).take (b - a))

/-- `isPrefixList p s = true` iff the char list `p` is a prefix of `s`. -/
def isPrefixList : List Char → List Char → Bool
  | [], _ => true
  | _ :: _, [] => false
  | a :: as, b :: bs => a == b && isPrefixList as bs

/-- Python `pat in s` on char lists: `pat` occurs as a contiguous substring. -/
def hasSub (pat : List Char) : List Char → Bool
  | [] => pat.isEmpty
  | c :: rest => isPrefixList pat (c :: rest) || hasSub pat rest

/-- Python `pat in s` on strings. -/
def strHasSub (s pat : String) : Bool := hasSub pat.data s.data

/-- Number of positions of the remaining list at which `pat` starts, added to
`acc` (tail-recursive so that large literal strings evaluate). -/
def countOccAux (pat : List Char) : List Char → Nat → Nat
  | [], acc => if pat.isEmpty then acc + 1 else acc
  | c :: rest, acc =>
    if isPrefixList pat (c :: rest) then countOccAux pat rest (acc + 1)
    else countOccAux pat rest acc

/-- Number of positions of `s` at which `pat` starts (for the patterns counted
in this file no two occurrences overlap, so this is Python `s.count(pat)`). -/
def strCountOcc (s pat : String) : Nat := countOccAux pat.data s.data 0

/-- Python `name.lower().replace(" ", "_")`, the stage-key normalization used
by both structures (the only replacements are single-character, so the
`replace` is a character map). -/
def normalizeKey (s : String) : String :=
  String.mk ((pyLower s).data.map fun c => if c == ' ' then '_' else c)

/-- Python `d.get(k, "")` on an association list modelling a `dict`. -/
def getDefault (content : List (String × String)) (k : String) : String :=
  (content.lookup k).getD ""

/-- External enum `narr_mod.StructureType` (imported by both modules; only the
two tags used here are modelled). -/
inductive StructureType
  | HARMON_CIRCLE
  | VOGLER_HERO_JOURNEY
deriving DecidableEq

/-- External dataclass `narr_mod.AnalysisMetadata` as populated by this code
(constant placeholder values). -/
structure AnalysisMetadata where
  model_name : String
  model_version : String
  confidence : ℚ
  processing_time : ℚ
  structure_type : StructureType
  display_name : String
deriving DecidableEq

/-- Modelled from the spec: `display_name` comes from the external
`NarrativeStructure` base class, which is not under `src/`; the spec only says
it is a display name written into the metadata. Its value affects no claim, so
it is modelled as an unspecified constant per structure. -/
def externalDisplayName (t : StructureType) : String :=
  match t with
  | .HARMON_CIRCLE => "Harmon Story Circle"
  | .VOGLER_HERO_JOURNEY => "Vogler Hero Journey"

end NarrMod

namespace HarmonStoryCircle

open NarrMod

/-- Dataclass `StoryStep` of `harmon_story_circle.py`. -/
structure StoryStep where
  number : Nat
  name : String
  description : String
  color : String
  act : String
  analysis_criteria : List String
deriving DecidableEq

/-- Class constant `ACT_BEGINNING`. -/
def ACT_BEGINNING : String := "Beginning"

/-- Class constant `ACT_MIDDLE`. -/
def ACT_MIDDLE : String := "Middle"

/-- Class constant `ACT_END`. -/
def ACT_END : String := "End"

/-- Class constant `STORY_STEPS`: the 8-step catalog. -/
def STORY_STEPS : List StoryStep := [
  { number := 1, name := "Зона комфорта", description := "Comfort Zone",
    color := "#e74c3c", act := ACT_BEGINNING,
    analysis_criteria := ["character establishment", "initial world state", "status quo"] },
  { number := 2, name := "Потребность или желание", description := "Need or Desire",
    color := "#3498db", act := ACT_BEGINNING,
    analysis_criteria := ["motivation clarity", "stakes establishment", "goal definition"] },
  { number := 3, name := "Незнакомая ситуация", description := "Unfamiliar Situation",
    color := "#2ecc71", act := ACT_MIDDLE,
    analysis_criteria := ["comfort zone departure", "new challenges", "initial adaptation"] },
  { number := 4, name := "Поиск и адаптация", description := "Search and Adaptation",
    color := "#f39c12", act := ACT_MIDDLE,
    analysis_criteria := ["challenge handling", "skill development", "world exploration"] },
  { number := 5, name := "Получение желаемого", description := "Getting What They Wanted",
    color := "#9b59b6", act := ACT_MIDDLE,
    analysis_criteria := ["goal achievement", "price recognition", "consequence understanding"] },
  { number := 6, name := "Плата за него", description := "Paying the Price",
    color := "#e67e22", act := ACT_MIDDLE,
    analysis_criteria := ["sacrifice measurement", "cost evaluation", "change catalyst"] },
  { number := 7, name := "Возвращение к привычному", description := "Return to Familiar",
    color := "#1abc9c", act := ACT_END,
    analysis_criteria := ["integration of change", "world comparison", "growth recognition"] },
  { number := 8, name := "Способность меняться", description := "Changed State",
    color := "#34495e", act := ACT_END,
    analysis_criteria := ["character evolution", "lesson application", "new normal"] }
]

/-- Class constant `CSS_TEMPLATE` (verbatim; `\x7b`/`\x7d` are `{`/`}`). -/
def CSS_TEMPLATE : String := "\n        .harmon-circle \x7b\n            width: 400px;\n            height: 400px;\n            border-radius: 50%;\n            border: 2px solid #333;\n            position: relative;\n            margin: 50px auto;\n        \x7d\n        .step \x7b\n            position: absolute;\n            width: 100px;\n            text-align: center;\n            transform-origin: center;\n            transition: all 0.3s ease;\n        \x7d\n        .step:hover \x7b\n            transform-origin: center;\n            transform: scale(1.1);\n        \x7d\n        .step-number \x7b\n            font-weight: bold;\n            font-size: 18px;\n            margin-bottom: 5px;\n        \x7d\n        .step-name \x7b\n            font-size: 12px;\n        \x7d\n        .circle-center \x7b\n            position: absolute;\n            width: 100px;\n            height: 100px;\n            border-radius: 50%;\n            top: 150px;\n            left: 150px;\n            display: flex;\n            align-items: center;\n            justify-content: center;\n            background: rgba(255,255,255,0.9);\n            border: 1px solid #333;\n        \x7d\n    "

/-- Return value of `_analyze_step` (a Python dict with these four keys). -/
structure StepAnalysis where
  presence : Bool
  strength : String
  suggestions : List String
  criteria_met : List String
deriving DecidableEq

/-- Return value of `_evaluate_overall_structure`. -/
structure OverallEvaluation where
  circle_completion : Bool
  balance : String
  suggestions : List String
deriving DecidableEq

/-- The `structure` dict built by `HarmonStoryCircle.analyze`. -/
structure HarmonStructure where
  steps : List (String × StepAnalysis)
  overall_evaluation : OverallEvaluation
deriving DecidableEq

/-- The `AnalysisResult` returned by `HarmonStoryCircle.analyze`
(field `structure` is `structure_` since `structure` is a Lean keyword). -/
structure HarmonResult where
  structure_ : HarmonStructure
  summary : String
  visualization : String
  metadata : AnalysisMetadata
deriving DecidableEq

/-- Method `_analyze_step`: constant judgment, the text is ignored. -/
def analyze_step (step : StoryStep) (_text : String) : StepAnalysis :=
  { presence := true
    strength := "medium"
    suggestions := []
    criteria_met := step.analysis_criteria }

/-- Method `_evaluate_overall_structure`: constant verdict. -/
def evaluate_overall_structure (_text : String) : OverallEvaluation :=
  { circle_completion := true
    balance := "well_balanced"
    suggestions := [] }

/-- The degree count `(step_number - 1) * 45 - 90` from
`_calculate_step_position` (Python integer arithmetic; `45 = 360 / 8`). -/
def step_angle_deg (step_number : Int) : Int := (step_number - 1) * 45 - 90

/-- Method `_calculate_step_position` over the reals: `radians(d) = d * pi/180`
and `(radius*cos(angle), radius*sin(angle))`. The Python `float` version is
this function rounded to doubles. -/
noncomputable def calculate_step_position (step_number : Int) (radius : ℝ) : ℝ × ℝ :=
  let angle : ℝ := (step_angle_deg step_number : ℝ) * Real.pi / 180
  (radius * Real.cos angle, radius * Real.sin angle)

/-- The Python repr of `f"translate({x}px, {y}px)"` where
`x = 150*cos(radians((n-1)*45 - 90))` and `y = 150*sin(...)` in IEEE-754
double arithmetic, tabulated for the step numbers 1..8 of the catalog
(exact binary floating point is outside this embedding; the values are the
doubles CPython computes and prints). -/
def translateStr : Nat → String
  | 1 => "translate(9.184850993605149e-15px, -150.0px)"
  | 2 => "translate(106.06601717798213px, -106.06601717798212px)"
  | 3 => "translate(150.0px, 0.0px)"
  | 4 => "translate(106.06601717798213px, 106.06601717798212px)"
  | 5 => "translate(9.184850993605149e-15px, 150.0px)"
  | 6 => "translate(-106.06601717798212px, 106.06601717798213px)"
  | 7 => "translate(-150.0px, 1.8369701987210297e-14px)"
  | 8 => "translate(-106.06601717798215px, -106.06601717798212px)"
  | _ => ""

/-- The integer angle `(step.number - 1) * 45 - 90` computed in `visualize`. -/
def stepAngle (number : Nat) : Int := ((number : Int) - 1) * 45 - 90

/-- Method `visualize`: joins the HTML parts with newlines. The input analysis
dict is not consulted by the Python code (`analysis_result` is unused there),
which the unused binder mirrors. -/
def visualize (_analysis_result : HarmonStructure) : String :=
  let html_parts : List String :=
    ["<h1>Сюжетный круг (Дэн Хармон)</h1>", "<div class='harmon-circle'>"]
    ++ (STORY_STEPS.flatMap fun step =>
        let angle := stepAngle step.number
        [ "<div class='step step-" ++ toString step.number ++ "' style='",
          "transform: rotate(" ++ toString angle ++ "deg) " ++ translateStr step.number
            ++ " rotate(-" ++ toString angle ++ "deg);",
          "color: " ++ step.color ++ ";'>",
          "<div class='step-number'>" ++ toString step.number ++ "</div>",
          "<div class='step-name'>" ++ step.name ++ "</div>",
          "</div>" ])
    ++ [ "<div class='circle-center'>", "Story<br>Circle", "</div>", "</div>",
         "<style>" ++ CSS_TEMPLATE ++ "</style>" ]
  String.intercalate "\n" html_parts

/-- Method `analyze`. -/
def analyze (text : String) : HarmonResult :=
  let structure_ : HarmonStructure :=
    { steps := STORY_STEPS.map fun step => (step.name, analyze_step step text)
      overall_evaluation := evaluate_overall_structure text }
  let metadata : AnalysisMetadata :=
    { model_name := "gpt-4", model_version := "1.0", confidence := 85/100,
      processing_time := 1, structure_type := .HARMON_CIRCLE,
      display_name := externalDisplayName .HARMON_CIRCLE }
  { structure_ := structure_
    summary := "Analysis of narrative structure using Harmon's Story Circle"
    visualization := visualize structure_
    metadata := metadata }

end HarmonStoryCircle

namespace VoglerHeroJourney

open NarrMod

/-- Enum `WorldType` of `vogler_hero_journey.py`. -/
inductive WorldType
  | ORDINARY
  | SPECIAL
deriving DecidableEq

/-- Python `world.name.lower()` for the enum member. -/
def worldLowerName : WorldType → String
  | .ORDINARY => "ordinary"
  | .SPECIAL => "special"

/-- Enum `ActType`. -/
inductive ActType
  | BEGINNING
  | MIDDLE
  | END
deriving DecidableEq

/-- Dataclass `StageElement`. -/
structure StageElement where
  name : String
  description : String
  keywords : List String
  importance : Nat
  world_type : WorldType
deriving DecidableEq

/-- Dataclass `Stage`. -/
structure Stage where
  number : Nat
  name : String
  description : String
  act : ActType
  world : WorldType
  elements : List StageElement
  angle : Int
  color : String
deriving DecidableEq

/-- Dataclass `StageAnalysis`; `score` is exact (`count/len` with small
denominators is exact in double precision). -/
structure StageAnalysis where
  elements_present : List (String × Bool)
  strengths : List String
  weaknesses : List String
  score : ℚ
deriving DecidableEq

/-- Class constant `TOTAL_STAGES`. -/
def TOTAL_STAGES : Nat := 12

/-- Class constant `CIRCLE_DEGREES`. -/
def CIRCLE_DEGREES : Nat := 360

/-- The single populated entry of the `STAGES` list. -/
def stageOrdinaryWorld : Stage :=
  { number := 1, name := "Ordinary World", description := "Hero's starting point",
    act := .BEGINNING, world := .ORDINARY,
    elements := [
      { name := "Initial State",
        description := "Hero's life before the adventure",
        keywords := ["normal", "routine", "ordinary", "everyday"],
        importance := 9, world_type := .ORDINARY },
      { name := "Character Establishment",
        description := "Introduction of hero's character",
        keywords := ["personality", "traits", "background", "life"],
        importance := 8, world_type := .ORDINARY } ],
    angle := 0, color := "#e6f3ff" }

/-- Class constant `STAGES`: as written in the source, only stage 1 of the 12
declared stages is populated (the source ends the list with a comment saying
the remaining stages are to be added). -/
def STAGES : List Stage := [stageOrdinaryWorld]

/-- Class constant `CSS_TEMPLATE` (verbatim; `\x7b`/`\x7d` are `{`/`}`). -/
def CSS_TEMPLATE : String := "\n        .vogler-journey \x7b\n            width: 800px;\n            height: 800px;\n            position: relative;\n            margin: 50px auto;\n        \x7d\n        .journey-circle \x7b\n            width: 100%;\n            height: 100%;\n            border-radius: 50%;\n            border: 3px solid #333;\n            position: absolute;\n            background: radial-gradient(circle, #fff, #f5f5f5);\n        \x7d\n        .stage \x7b\n            position: absolute;\n            width: 120px;\n            text-align: center;\n            left: 50%;\n            top: 50%;\n            font-size: 14px;\n            line-height: 1.3;\n            transform-origin: 0 0;\n            transition: all 0.3s ease;\n        \x7d\n        .stage-content \x7b\n            background: rgba(255, 255, 255, 0.9);\n            padding: 10px;\n            border-radius: 8px;\n            box-shadow: 0 2px 5px rgba(0,0,0,0.1);\n            transition: all 0.3s ease;\n        \x7d\n        .stage-content:hover \x7b\n            transform: scale(1.1);\n            box-shadow: 0 5px 15px rgba(0,0,0,0.2);\n        \x7d\n        .stage-number \x7b\n            font-weight: bold;\n            color: #666;\n        \x7d\n        .stage-name \x7b\n            font-weight: bold;\n            margin: 5px 0;\n        \x7d\n        .stage-description \x7b\n            font-size: 12px;\n            color: #666;\n        \x7d\n        .world-indicator \x7b\n            width: 10px;\n            height: 10px;\n            border-radius: 50%;\n            display: inline-block;\n            margin-right: 5px;\n        \x7d\n        .ordinary-world \x7b\n            background-color: #4CAF50;\n        \x7d\n        .special-world \x7b\n            background-color: #2196F3;\n        \x7d\n        .connection-line \x7b\n            position: absolute;\n            height: 2px;\n            background: #ddd;\n            transform-origin: 0 0;\n        \x7d\n    "

/-- The dict key used for a stage: `stage.name.lower().replace(" ", "_")`. -/
def stageKey (stage : Stage) : String := normalizeKey stage.name

/-- Method `_split_into_stages`: the stages dict as an association list in
catalog order (keys are distinct, so this matches the Python dict). -/
def split_into_stages (text : String) : List (String × String) :=
  let total_length := text.length
  let stage_length := total_length / TOTAL_STAGES
  STAGES.enum.map fun p =>
    let i := p.1
    let start := i * stage_length
    let stop := if i < TOTAL_STAGES - 1 then (i + 1) * stage_length else total_length
    (stageKey p.2, pySlice text start stop)

/-- The window `_analyze_stage` reads for a stage:
`content.get(stage.name.lower().replace(" ", "_"), "")`. -/
def windowOf (stage : Stage) (content : List (String × String)) : String :=
  getDefault content (stageKey stage)

/-- The per-element presence test of `_analyze_stage`:
`any(keyword in stage_content.lower() for keyword in element.keywords)`. -/
def elementPresent (stage_content : String) (element : StageElement) : Bool :=
  element.keywords.any fun keyword => strHasSub (pyLower stage_content) keyword

/-- One iteration of the `for element in stage.elements` loop of
`_analyze_stage`: extends the presence dict and appends the strength or
weakness note. -/
def stageStep (stage_content : String)
    (acc : List (String × Bool) × List String × List String)
    (element : StageElement) :
    List (String × Bool) × List String × List String :=
  let is_present := elementPresent stage_content element
  ( acc.1 ++ [(element.name, is_present)],
    (if is_present then acc.2.1 ++ [element.name ++ " is well established"] else acc.2.1),
    (if is_present then acc.2.2 else acc.2.2 ++ [element.name ++ " needs more development"]) )

/-- Method `_analyze_stage`: the element loop, then the score
`sum(elements_present.values()) / len(stage.elements)` (the `True` values
count as `1`). -/
def analyze_stage (stage : Stage) (content : List (String × String)) : StageAnalysis :=
  let stage_content := windowOf stage content
  let acc := stage.elements.foldl (stageStep stage_content) ([], [], [])
  { elements_present := acc.1
    strengths := acc.2.1
    weaknesses := acc.2.2
    score := ((acc.1.countP fun p => p.2) : ℚ) / (stage.elements.length : ℚ) }

/-- The `transitions` dict returned by `_analyze_transitions` (constants). -/
structure TransitionAnalysis where
  clarity : ℚ
  impact : ℚ
  smoothness : ℚ
deriving DecidableEq

/-- Method `_analyze_transitions`. -/
def analyze_transitions (_world_type : WorldType) (_content : List (String × String)) :
    TransitionAnalysis :=
  { clarity := 8/10, impact := 7/10, smoothness := 9/10 }

/-- The dict returned by `_analyze_world`. -/
structure WorldAnalysis where
  strength : ℚ
  balance : ℚ
  transitions : TransitionAnalysis
deriving DecidableEq

/-- The string `" ".join(content.get(key, "") for s in relevant_stages)` of
`_analyze_world`. -/
def worldContent (world_type : WorldType) (content : List (String × String)) : String :=
  String.intercalate " "
    ((STAGES.filter fun s => s.world == world_type).map fun s => windowOf s content)

/-- Method `_analyze_world`. -/
def analyze_world (world_type : WorldType) (content : List (String × String)) :
    WorldAnalysis :=
  let relevant_stages := STAGES.filter fun s => s.world == world_type
  { strength := ((worldContent world_type content).length : ℚ) / 1000
    balance := (relevant_stages.length : ℚ) / (STAGES.length : ℚ)
    transitions := analyze_transitions world_type content }

/-- Method `_analyze_world_balance`:
`min(o, s) / max(o, s)` on the two world strengths. Both strengths are
non-negative, so the Python float division raises `ZeroDivisionError` exactly
when the max is `0.0`; that case is `none`. -/
def analyze_world_balance (content : List (String × String)) : Option ℚ :=
  let ordinary := (analyze_world .ORDINARY content).strength
  let special := (analyze_world .SPECIAL content).strength
  if max ordinary special = 0 then none
  else some (min ordinary special / max ordinary special)

/-- The dict returned by `_analyze_overall_structure` when no exception is
raised. -/
structure OverallAnalysis where
  completeness : ℚ
  balance : ℚ
  flow : ℚ
deriving DecidableEq

/-- Method `_get_stage_analyses`. -/
def get_stage_analyses (content : List (String × String)) : List StageAnalysis :=
  STAGES.map fun stage => analyze_stage stage content

/-- Method `_analyze_overall_structure`; `none` when the balance computation
raises `ZeroDivisionError`. -/
def analyze_overall_structure (content : List (String × String)) : Option OverallAnalysis :=
  (analyze_world_balance content).map fun balance =>
    { completeness := ((get_stage_analyses content).map (fun a => a.score)).sum
                        / (STAGES.length : ℚ)
      balance := balance
      flow := 85/100 }

/-- The `analysis` dict built by `analyze` (on the non-raising path). -/
structure VoglerStructure where
  stages : List (String × StageAnalysis)
  worlds_ordinary : WorldAnalysis
  worlds_special : WorldAnalysis
  overall : OverallAnalysis
deriving DecidableEq

/-- The `AnalysisResult` returned by `analyze`
(field `structure` is `structure_` since `structure` is a Lean keyword). -/
structure VoglerResult where
  structure_ : VoglerStructure
  summary : String
  visualization : String
  metadata : AnalysisMetadata
deriving DecidableEq

/-- Method `_get_color_by_score`: `int(score * 255)` (Python `int()` truncates
toward zero) interpolated into `rgb(200, _, 200)`. -/
def get_color_by_score (score : ℚ) : String :=
  let green : Int := if score * 255 < 0 then -(Rat.floor (-(score * 255))) else Rat.floor (score * 255)
  "rgb(200, " ++ toString green ++ ", 200)"

/-- The Python reprs of `400*cos(radians(angle))` and `400*sin(radians(angle))`
(IEEE-754 doubles) for the stage angles of the catalog; only `angle = 0`
occurs, where both doubles are exact. -/
def stageXY : Int → String × String
  | 0 => ("400.0", "0.0")
  | _ => ("", "")

/-- The expression
`analysis_result.get("stages", {}).get(stage.name, {}).get("score", 0)`
of `visualize`, evaluated on the structure `analyze` builds. When the stage
name is present, the inner lookup yields the `StageAnalysis` dataclass, which
has no `.get` method, so Python raises `AttributeError` (modelled `none`);
when it is absent, the default `{}` is a dict and `.get("score", 0)` is `0`. -/
def scoreOf (analysis_result : VoglerStructure) (stage : Stage) : Option ℚ :=
  match analysis_result.stages.lookup stage.name with
  | some _ => none
  | none => some 0

/-- The f-string block appended per stage by `visualize` (whitespace verbatim
from the triple-quoted source literal); `none` when the score read raises. -/
def stageDiv (analysis_result : VoglerStructure) (stage : Stage) : Option String :=
  (scoreOf analysis_result stage).map fun score =>
  let xy := stageXY stage.angle
  "\n                <div class='stage' style='\n                    transform: translate("
    ++ xy.1 ++ "px, " ++ xy.2 ++ "px) rotate(" ++ toString stage.angle
    ++ "deg);\n                    background-color: "
    ++ get_color_by_score score
    ++ ";\n                '>\n                    <div class='stage-content'>\n                        <div class='stage-number'>"
    ++ toString stage.number
    ++ "</div>\n                        <div class='stage-name'>"
    ++ stage.name
    ++ "</div>\n                        <div class='world-indicator "
    ++ worldLowerName stage.world
    ++ "-world'></div>\n                        <div class='stage-description'>"
    ++ stage.description
    ++ "</div>\n                    </div>\n                </div>\n            "

/-- Method `visualize`; `none` when some per-stage block raises. -/
def visualize (analysis_result : VoglerStructure) : Option String := do
  let stage_parts ← STAGES.mapM fun stage => stageDiv analysis_result stage
  let html_parts : List String :=
    ["<div class='vogler-journey'>", "<div class='journey-circle'>"]
    ++ stage_parts
    ++ ["</div>", "</div>", "<style>" ++ CSS_TEMPLATE ++ "</style>"]
  pure (String.intercalate "\n" html_parts)

/-- Method `analyze`; `none` when `_analyze_overall_structure` raises
`ZeroDivisionError` or the `visualize` call raises `AttributeError`
(the two exceptions reachable in this code). -/
def analyze (text : String) : Option VoglerResult := do
  let content := split_into_stages text
  let overall ← analyze_overall_structure content
  let structure_ : VoglerStructure :=
    { stages := STAGES.map fun stage => (stage.name, analyze_stage stage content)
      worlds_ordinary := analyze_world .ORDINARY content
      worlds_special := analyze_world .SPECIAL content
      overall := overall }
  let visualization ← visualize structure_
  let metadata : AnalysisMetadata :=
    { model_name := "gpt-4", model_version := "1.0", confidence := 85/100,
      processing_time := 1, structure_type := .VOGLER_HERO_JOURNEY,
      display_name := externalDisplayName .VOGLER_HERO_JOURNEY }
  pure { structure_ := structure_
         summary := "Analysis of narrative using Vogler's Hero's Journey"
         visualization := visualization
         metadata := metadata }

end VoglerHeroJourney

namespace VoglerHeroJourney

open NarrMod

/-- The per-stage behaviour claimed of `_analyze_stage`: the presence dict
pairs each element name with its keyword test; the keyword test succeeds iff
some keyword of the element occurs as a contiguous substring of the lowercased
window (all catalog keywords are already lowercase, so this is
case-insensitive matching); the score is `present count / element count`; and
there is one strength note per present element and one weakness note per
absent element, in element order. -/
def KeywordMatchingSpec (stage : Stage) (content : List (String × String)) : Prop :=
  (analyze_stage stage content).elements_present
    = stage.elements.map (fun e => (e.name, elementPresent (windowOf stage content) e))
  ∧ (∀ e ∈ stage.elements,
      (elementPresent (windowOf stage content) e = true
        ↔ ∃ kw ∈ e.keywords, ∃ l r,
            (pyLower (windowOf stage content)).data = l ++ kw.data ++ r))
  ∧ (∀ e ∈ stage.elements, ∀ kw ∈ e.keywords, pyLower kw = kw)
  ∧ (analyze_stage stage content).score
      = ((stage.elements.countP fun e => elementPresent (windowOf stage content) e) : ℚ)
          / (stage.elements.length : ℚ)
  ∧ (analyze_stage stage content).strengths
      = (stage.elements.filter fun e => elementPresent (windowOf stage content) e).map
          (fun e => e.name ++ " is well established")
  ∧ (analyze_stage stage content).weaknesses
      = (stage.elements.filter fun e => ! elementPresent (windowOf stage content) e).map
          (fun e => e.name ++ " needs more development")

/-- A sample analysis structure (used to instantiate determinism). -/
def voglerSampleStructure : VoglerStructure :=
  { stages := []
    worlds_ordinary := { strength := 0, balance := 1, transitions := analyze_transitions .ORDINARY [] }
    worlds_special := { strength := 0, balance := 0, transitions := analyze_transitions .SPECIAL [] }
    overall := { completeness := 0, balance := 0, flow := 85/100 } }

end VoglerHeroJourney

/-! ## Helper lemmas -/

namespace NarrMod

theorem isPrefixList_iff (p : List Char) :
    ∀ s : List Char, isPrefixList p s = true ↔ ∃ t, s = p ++ t := by
  induction p with
  | nil => intro s; simp [isPrefixList]
  | cons a as ih =>
    intro s
    cases s with
    | nil => simp [isPrefixList]
    | cons b bs =>
      rw [isPrefixList, Bool.and_eq_true, beq_iff_eq, ih bs]
      constructor
      · rintro ⟨rfl, t, rfl⟩
        exact ⟨t, rfl⟩
      · rintro ⟨t, h⟩
        injection h with h1 h2
        exact ⟨h1.symm, t, h2⟩

theorem hasSub_iff (pat : List Char) :
    ∀ s : List Char, hasSub pat s = true ↔ ∃ l r, s = l ++ pat ++ r := by
  intro s
  induction s with
  | nil =>
    rw [hasSub, List.isEmpty_iff]
    constructor
    · rintro rfl
      exact ⟨[], [], rfl⟩
    · rintro ⟨l, r, h⟩
      rcases List.append_eq_nil.mp (List.append_eq_nil.mp h.symm).1 with ⟨-, hp⟩
      exact hp
  | cons c rest ih =>
    rw [hasSub, Bool.or_eq_true, isPrefixList_iff, ih]
    constructor
    · rintro (⟨t, h⟩ | ⟨l, r, rfl⟩)
      · exact ⟨[], t, by simpa using h⟩
      · exact ⟨c :: l, r, rfl⟩
    · rintro ⟨l, r, h⟩
      cases l with
      | nil =>
        left
        exact ⟨r, by simpa using h⟩
      | cons x xs =>
        right
        injection h with h1 h2
        subst h1
        exact ⟨xs, r, h2⟩

/-- `strHasSub` is occurrence of `pat` as a contiguous substring. -/
theorem strHasSub_iff (s pat : String) :
    strHasSub s pat = true ↔ ∃ l r, s.data = l ++ pat.data ++ r :=
  hasSub_iff pat.data s.data

end NarrMod

namespace VoglerHeroJourney

open NarrMod

/-- The element loop of `_analyze_stage` accumulates exactly one presence
entry per element, one strength note per present element and one weakness
note per absent element, in element order. -/
theorem stageStep_foldl (w : String) (els : List StageElement) :
    ∀ ep st wk,
      els.foldl (stageStep w) (ep, st, wk)
        = (ep ++ els.map (fun e => (e.name, elementPresent w e)),
           st ++ (els.filter fun e => elementPresent w e).map
                   (fun e => e.name ++ " is well established"),
           wk ++ (els.filter fun e => ! elementPresent w e).map
                   (fun e => e.name ++ " needs more development")) := by
  induction els with
  | nil => intro ep st wk; simp
  | cons e es ih =>
    intro ep st wk
    rw [List.foldl_cons]
    cases hp : elementPresent w e with
    | false =>
      have hstep : stageStep w (ep, st, wk) e
          = (ep ++ [(e.name, false)], st, wk ++ [e.name ++ " needs more development"]) := by
        simp [stageStep, hp]
      rw [hstep, ih]
      simp [List.filter_cons, hp, List.append_assoc]
    | true =>
      have hstep : stageStep w (ep, st, wk) e
          = (ep ++ [(e.name, true)], st ++ [e.name ++ " is well established"], wk) := by
        simp [stageStep, hp]
      rw [hstep, ih]
      simp [List.filter_cons, hp, List.append_assoc]

/-- The record `_analyze_stage` returns, characterized without the fold. -/
theorem analyze_stage_spec (stage : Stage) (content : List (String × String)) :
    analyze_stage stage content
      = { elements_present :=
            stage.elements.map fun e => (e.name, elementPresent (windowOf stage content) e)
          strengths :=
            (stage.elements.filter fun e => elementPresent (windowOf stage content) e).map
              fun e => e.name ++ " is well established"
          weaknesses :=
            (stage.elements.filter fun e => ! elementPresent (windowOf stage content) e).map
              fun e => e.name ++ " needs more development"
          score :=
            ((stage.elements.countP fun e => elementPresent (windowOf stage content) e) : ℚ)
              / (stage.elements.length : ℚ) } := by
  simp only [analyze_stage]
  rw [stageStep_foldl]
  simp only [List.nil_append, List.countP_map]
  rfl

/-- Score bounds for any stage and content: the score the Lean model computes
is `count/length`, which lies in `[0, 1]`. -/
theorem analyze_stage_score_bounds (stage : Stage) (content : List (String × String)) :
    0 ≤ (analyze_stage stage content).score ∧ (analyze_stage stage content).score ≤ 1 := by
  rw [analyze_stage_spec]
  constructor
  · exact div_nonneg (by positivity) (by positivity)
  · rcases Nat.eq_zero_or_pos stage.elements.length with h0 | hpos
    · simp [h0, List.length_eq_zero.mp h0]
    · apply div_le_one_of_le₀
      · exact_mod_cast List.countP_le_length _
      · positivity

end VoglerHeroJourney

/-- `VoglerHeroJourney.analyze` never returns a result: when
`_analyze_overall_structure` does not raise (texts of 12 or more characters),
the `visualize` call raises `AttributeError` on the `StageAnalysis` dataclass
stored under the populated stage's name. -/
theorem vogler_analyze_eq_none (text : String) : VoglerHeroJourney.analyze text = none := by
  simp only [VoglerHeroJourney.analyze]
  cases h : VoglerHeroJourney.analyze_overall_structure
      (VoglerHeroJourney.split_into_stages text) with
  | none => rfl
  | some overall => rfl

/-! ## Claims -/

/-- Claim C1: the claim asserts that the balance division
`min(strength)/max(strength)` inside `VoglerHeroJourney.analyze` is guarded so
that zero world strengths resolve to a neutral value instead of raising
`ZeroDivisionError`. The code has no guard: on the empty input text both world
strengths are `0`, the division is `0.0/0.0`, and the exception (modelled
`none`) propagates out of `analyze`. -/
theorem vogler_balance_division_unguarded :
    VoglerHeroJourney.analyze_world_balance (VoglerHeroJourney.split_into_stages "") = none
  ∧ VoglerHeroJourney.analyze "" = none := by
  constructor
  · have h1 : VoglerHeroJourney.worldContent .ORDINARY
        (VoglerHeroJourney.split_into_stages "") = "" := by decide
    have h2 : VoglerHeroJourney.worldContent .SPECIAL
        (VoglerHeroJourney.split_into_stages "") = "" := by decide
    simp [VoglerHeroJourney.analyze_world_balance, VoglerHeroJourney.analyze_world, h1, h2]
  · exact vogler_analyze_eq_none ""

/-- Claim C2: the claim asserts `_split_into_stages` yields `TOTAL_STAGES`
windows whose ordered concatenation reconstructs the input text. The populated
catalog has a single stage, so the loop emits one window, and because
`0 < TOTAL_STAGES - 1` that window is `text[0 : len(text)//12]`, not the rest
of the text: on the 12-character input below the result is the single window
`"a"`. -/
theorem vogler_split_into_stages_incomplete :
    (VoglerHeroJourney.split_into_stages "abcdefghijkl").length = 1
  ∧ (VoglerHeroJourney.split_into_stages "abcdefghijkl").length ≠ VoglerHeroJourney.TOTAL_STAGES
  ∧ String.join ((VoglerHeroJourney.split_into_stages "abcdefghijkl").map fun p => p.2) = "a"
  ∧ "a" ≠ "abcdefghijkl" := by
  refine ⟨rfl, by decide, rfl, by decide⟩

/-- Claim C3: in `_analyze_stage`, an element is present iff one of its
keywords occurs case-insensitively as a substring of the window; the score is
`present count / element count`; one strength note per present element and one
weakness note per absent element. -/
theorem vogler_keyword_matching (stage : VoglerHeroJourney.Stage)
    (hst : stage ∈ VoglerHeroJourney.STAGES) (content : List (String × String)) :
    VoglerHeroJourney.KeywordMatchingSpec stage content := by
  refine ⟨?_, ?_, ?_, ?_, ?_, ?_⟩
  · rw [VoglerHeroJourney.analyze_stage_spec]
  · intro e he
    unfold VoglerHeroJourney.elementPresent
    rw [List.any_eq_true]
    constructor
    · rintro ⟨kw, hkw, hsub⟩
      exact ⟨kw, hkw, (NarrMod.strHasSub_iff _ _).mp hsub⟩
    · rintro ⟨kw, hkw, h⟩
      exact ⟨kw, hkw, (NarrMod.strHasSub_iff _ _).mpr h⟩
  · simp only [VoglerHeroJourney.STAGES, List.mem_singleton] at hst
    subst hst
    decide
  · rw [VoglerHeroJourney.analyze_stage_spec]
  · rw [VoglerHeroJourney.analyze_stage_spec]
  · rw [VoglerHeroJourney.analyze_stage_spec]

/-- Witness for C3 at the populated stage and a concrete window containing
the keywords "normal" (mixed case in the text) and "life". -/
theorem vogler_keyword_matching_witness :
    VoglerHeroJourney.stageOrdinaryWorld ∈ VoglerHeroJourney.STAGES
  ∧ VoglerHeroJourney.KeywordMatchingSpec VoglerHeroJourney.stageOrdinaryWorld
      [("ordinary_world", "A Normal day in his LIFE")] :=
  ⟨by decide, vogler_keyword_matching VoglerHeroJourney.stageOrdinaryWorld (by decide) _⟩

/-- Claim C4: `_analyze_stage` never raises on an empty or absent window (a
missing stage key reads as `""`): on the empty window every element is marked
absent and the score is `0`; and the score always lies in `[0, 1]`. -/
theorem vogler_analyze_stage_safe (stage : VoglerHeroJourney.Stage)
    (hst : stage ∈ VoglerHeroJourney.STAGES) (content : List (String × String)) :
    (VoglerHeroJourney.windowOf stage content = "" →
        (∀ p ∈ (VoglerHeroJourney.analyze_stage stage content).elements_present, p.2 = false)
      ∧ (VoglerHeroJourney.analyze_stage stage content).score = 0)
  ∧ 0 ≤ (VoglerHeroJourney.analyze_stage stage content).score
  ∧ (VoglerHeroJourney.analyze_stage stage content).score ≤ 1 := by
  refine ⟨?_, VoglerHeroJourney.analyze_stage_score_bounds stage content⟩
  intro hw
  simp only [VoglerHeroJourney.STAGES, List.mem_singleton] at hst
  subst hst
  rw [VoglerHeroJourney.analyze_stage_spec, hw]
  constructor
  · decide
  · have hc : (VoglerHeroJourney.stageOrdinaryWorld.elements.countP fun e =>
        VoglerHeroJourney.elementPresent "" e) = 0 := by decide
    simp [hc]

/-- Witness for C4 at the populated stage and the empty content dict (the
stage key is absent, so the window is the empty string). -/
theorem vogler_analyze_stage_safe_witness :
    VoglerHeroJourney.stageOrdinaryWorld ∈ VoglerHeroJourney.STAGES
  ∧ VoglerHeroJourney.windowOf VoglerHeroJourney.stageOrdinaryWorld [] = ""
  ∧ (∀ p ∈ (VoglerHeroJourney.analyze_stage VoglerHeroJourney.stageOrdinaryWorld
        []).elements_present, p.2 = false)
  ∧ (VoglerHeroJourney.analyze_stage VoglerHeroJourney.stageOrdinaryWorld []).score = 0
  ∧ 0 ≤ (VoglerHeroJourney.analyze_stage VoglerHeroJourney.stageOrdinaryWorld []).score
  ∧ (VoglerHeroJourney.analyze_stage VoglerHeroJourney.stageOrdinaryWorld []).score ≤ 1 := by
  have h := vogler_analyze_stage_safe VoglerHeroJourney.stageOrdinaryWorld (by decide) []
  have hw : VoglerHeroJourney.windowOf VoglerHeroJourney.stageOrdinaryWorld [] = "" := by decide
  exact ⟨by decide, hw, (h.1 hw).1, (h.1 hw).2, h.2.1, h.2.2⟩

/-- Claim C5: `_calculate_step_position` computes the angle
`(step_number - 1) * 45 - 90` degrees (`45 = 360/8`, so ordinal 1 sits at
`-90°`, the top of the circle) and returns
`(radius * cos(angle), radius * sin(angle))` after radians conversion, so the
point lies on the circle of radius `r`: `x² + y² = r²` (exactly, over the
reals — the floating-point version agrees within tolerance). -/
theorem harmon_step_position_on_circle :
    HarmonStoryCircle.step_angle_deg 1 = -90
  ∧ (45 : ℚ) = 360 / 8
  ∧ ∀ (n : Int) (r : ℝ),
      (HarmonStoryCircle.calculate_step_position n r).1 ^ 2
        + (HarmonStoryCircle.calculate_step_position n r).2 ^ 2 = r ^ 2 := by
  refine ⟨by decide, by norm_num, fun n r => ?_⟩
  simp only [HarmonStoryCircle.calculate_step_position]
  have h := Real.sin_sq_add_cos_sq
    ((HarmonStoryCircle.step_angle_deg n : ℝ) * Real.pi / 180)
  linear_combination (r : ℝ) ^ 2 * h

/-- Claim C6: the fixed-judgment policy ignores the input text: for every
text and step, `_analyze_step` reports presence `True`, strength `"medium"`,
no suggestions and the full criteria list met; and
`_evaluate_overall_structure` always reports the constant
well-balanced/complete verdict. -/
theorem harmon_fixed_judgment_constant :
    (∀ (step : HarmonStoryCircle.StoryStep) (text : String),
        HarmonStoryCircle.analyze_step step text
          = { presence := true, strength := "medium", suggestions := [],
              criteria_met := step.analysis_criteria })
  ∧ ∀ text : String,
      HarmonStoryCircle.evaluate_overall_structure text
        = { circle_completion := true, balance := "well_balanced", suggestions := [] } :=
  ⟨fun _ _ => rfl, fun _ => rfl⟩

set_option maxRecDepth 100000

/-- Claim C7: for every input text, `HarmonStoryCircle.analyze` returns a
structure whose `steps` dict has exactly the 8 catalog step names as keys
(pairwise distinct), and whose visualization contains exactly 8 occurrences of
the per-stage marker `<div class='step-number'>` and exactly one occurrence of
the static CSS block `<style>...CSS_TEMPLATE...</style>`. (The bare token
`step-number` additionally occurs once inside the CSS block itself.) -/
theorem harmon_analyze_shape :
    (∀ text : String,
        ((HarmonStoryCircle.analyze text).structure_.steps.map fun p => p.1)
          = HarmonStoryCircle.STORY_STEPS.map fun s => s.name)
  ∧ (HarmonStoryCircle.STORY_STEPS.map fun s => s.name).Nodup
  ∧ HarmonStoryCircle.STORY_STEPS.length = 8
  ∧ (∀ text : String,
        NarrMod.strCountOcc (HarmonStoryCircle.analyze text).visualization
          "<div class='step-number'>" = 8)
  ∧ ∀ text : String,
      NarrMod.strCountOcc (HarmonStoryCircle.analyze text).visualization
        ("<style>" ++ HarmonStoryCircle.CSS_TEMPLATE ++ "</style>") = 1 := by
  have hconst : ∀ text : String,
      (HarmonStoryCircle.analyze text).visualization
        = (HarmonStoryCircle.analyze "").visualization := fun _ => rfl
  refine ⟨fun _ => rfl, by decide, rfl, fun t => ?_, fun t => ?_⟩
  · rw [hconst t]; decide
  · rw [hconst t]; decide

/-- Claim C8: in both stage catalogs the ordinals form the contiguous
sequence `1..N` where `N` is the catalog's length (8 for
`STORY_STEPS`, 1 for the populated `STAGES` list); the catalogs are constant
definitions, never modified. -/
theorem catalog_ordinals_contiguous :
    (HarmonStoryCircle.STORY_STEPS.map fun s => s.number)
      = (List.range HarmonStoryCircle.STORY_STEPS.length).map (fun i => i + 1)
  ∧ (VoglerHeroJourney.STAGES.map fun s => s.number)
      = (List.range VoglerHeroJourney.STAGES.length).map (fun i => i + 1) := by
  decide

/-- Claim C9: both `visualize` methods are deterministic — equal analysis
inputs give byte-identical results (they are pure functions of the argument
and the constant catalog/CSS data; Vogler's may raise, modelled by `Option`,
equally on both runs). -/
theorem visualize_deterministic :
    (∀ a b : HarmonStoryCircle.HarmonStructure, a = b →
        HarmonStoryCircle.visualize a = HarmonStoryCircle.visualize b)
  ∧ ∀ a b : VoglerHeroJourney.VoglerStructure, a = b →
      VoglerHeroJourney.visualize a = VoglerHeroJourney.visualize b :=
  ⟨fun _ _ h => by rw [h], fun _ _ h => by rw [h]⟩

/-- Witness for C9: two runs on concrete equal inputs. -/
theorem visualize_deterministic_witness :
    ((HarmonStoryCircle.analyze "sample").structure_
        = (HarmonStoryCircle.analyze "sample").structure_
      ∧ HarmonStoryCircle.visualize (HarmonStoryCircle.analyze "sample").structure_
          = HarmonStoryCircle.visualize (HarmonStoryCircle.analyze "sample").structure_)
  ∧ (VoglerHeroJourney.voglerSampleStructure = VoglerHeroJourney.voglerSampleStructure
      ∧ VoglerHeroJourney.visualize VoglerHeroJourney.voglerSampleStructure
          = VoglerHeroJourney.visualize VoglerHeroJourney.voglerSampleStructure) :=
  ⟨⟨rfl, visualize_deterministic.1 _ _ rfl⟩, ⟨rfl, visualize_deterministic.2 _ _ rfl⟩⟩

/-- Claim C10: the claim asserts that for both structures the result of
`analyze` satisfies `visualization = visualize(structure)`. For Harmon this
holds for every text. For Vogler no result is ever returned:
`analyze` always raises — `ZeroDivisionError` in the balance for texts
shorter than 12 characters, otherwise `AttributeError` inside its own
`visualize` call (`.get("score", 0)` on the `StageAnalysis` dataclass) — so
the model returns `none` for every text. -/
theorem analyze_result_consistency :
    (∀ text : String,
        (HarmonStoryCircle.analyze text).visualization
          = HarmonStoryCircle.visualize (HarmonStoryCircle.analyze text).structure_)
  ∧ ∀ text : String, VoglerHeroJourney.analyze text = none :=
  ⟨fun _ => rfl, vogler_analyze_eq_none⟩
